import Mathlib

/-!
Verification of the extract/transcribe pipeline in
src/ExplicitUtil/whisper_cpp_transcribe.py.

The embedding models paths as strings, the filesystem as the list of
existing paths, the pending-transcription queue as a list (FIFO: jobs are
put at the tail, the worker takes from the head), and the outcomes of the
two external subprocesses (ffmpeg, whisper-cli) as explicit parameters,
since they are decided outside the program.
-/

namespace ExplicitUtil

/-- A filesystem is the list of paths that exist; deleting a path removes
it from the list. -/
abbrev FS := List String

/-- The pieces pathlib exposes of a discovered file: `parent`, `stem` and
`suffix` (the extension with its leading dot, possibly empty). -/
structure VideoFile where
  parent : String
  stem : String
  suffix : String
deriving DecidableEq, Repr

/-- `str(video_file)`: the full path of the file. -/
def VideoFile.path (v : VideoFile) : String := v.parent ++ "/" ++ v.stem ++ v.suffix

/-- The job dict built at lines 68-76 of whisper_cpp_transcribe.py. -/
structure Job where
  video_file : String
  audio_file : String
  input_folder : String
  base_name : String
  whisper_path : String
  model_path : String
  prompt : String
deriving DecidableEq, Repr

/-- The Python exception classes that matter to the try/except blocks of
the module: `subprocess.CalledProcessError` (raised by `subprocess.run`
only when `check=True` is passed) and `FileNotFoundError` (raised when the
executable cannot be launched). -/
inductive PyExc
  | calledProcessError
  | fileNotFoundError
deriving DecidableEq, Repr

/-- What the external ffmpeg invocation does: either the executable fails
to launch, or it runs and exits with some code. -/
inductive FfmpegOutcome
  | launchFailure
  | exited (code : Int)
deriving DecidableEq, Repr

/-- `subprocess.run(ffmpeg_cmd, text=True, capture_output=True)` (line 60).
`check=True` is NOT passed, so a completed process never raises, whatever
its exit code; only a launch failure raises `FileNotFoundError`. -/
def subprocessRunNoCheck : FfmpegOutcome → Except PyExc Int
  | .launchFailure => .error .fileNotFoundError
  | .exited code => .ok code

/-- What a call to `extract_audio` does to the world: either a job is put
on the module-level `whisper_queue` (line 77), or an exception escapes the
function, or the `except subprocess.CalledProcessError` handler (lines
63-65) logs the error and returns without enqueuing. -/
inductive ExtractEffect
  | enqueued (j : Job)
  | raised (e : PyExc)
  | loggedSkip
deriving DecidableEq, Repr

/-- Lines 31-78: `extract_audio(video_file, whisper_root, prompt)`.
Derived paths follow lines 35-39; the ffmpeg invocation is line 60; the
only handler catches `subprocess.CalledProcessError` (line 63); on fall
through, the job dict of lines 68-76 is put on the queue (line 77). -/
def extract_audio (video_file : VideoFile) (whisper_root : String)
    (prompt : String) (ffmpeg : FfmpegOutcome) : ExtractEffect :=
  let input_folder := video_file.parent
  let base_name := video_file.stem
  let audio_file := input_folder ++ "/" ++ base_name ++ ".wav"
  let whisper_path := whisper_root ++ "/build/bin/Release/whisper-cli.exe"
  let model_path := whisper_root ++ "/models/ggml-large-v3.bin"
  match subprocessRunNoCheck ffmpeg with
  | .error .calledProcessError => .loggedSkip
  | .error e => .raised e
  | .ok _code =>
      .enqueued
        { video_file := video_file.path
          audio_file := audio_file
          input_folder := input_folder
          base_name := base_name
          whisper_path := whisper_path
          model_path := model_path
          prompt := prompt }

/-! ## The transcription worker, one job at a time (lines 103-247) -/

/-- Where the whisper subprocess stands when an unexpected exception hits
the `try` block of the worker (caught at line 209): `Popen` itself raised
so no process exists (`process` is `None` or `poll()` already returned),
the process exists but has already exited, or it is still running. -/
inductive ProcAtExc
  | noProc
  | exitedAlready
  | stillRunning
deriving DecidableEq, Repr

/-- What the external whisper-cli invocation does for one job: the
executable fails to launch (`FileNotFoundError`, caught at line 205), it
runs to completion and exits with some code (lines 194-203), or an
unexpected exception interrupts launching/streaming (caught at line 209),
with the process in the given state at that moment. -/
inductive WhisperOutcome
  | launchFailure
  | exited (code : Int)
  | streamExc (proc : ProcAtExc)
deriving DecidableEq, Repr

/-- The calls the zombie-termination handler (lines 213-224) makes on the
still-running process. -/
inductive TermEvent
  | terminate
  | waitOk
  | waitTimeoutExpired (secs : Nat)
  | kill
deriving DecidableEq, Repr

/-- Environment of one worker iteration: what the whisper subprocess does,
whether a still-running process obeys `terminate()` within the 5-second
wait, and whether `audio_file.unlink()` raises (line 231). -/
structure JobEnv where
  outcome : WhisperOutcome
  respondsToTerminate : Bool
  unlinkRaises : Bool
deriving DecidableEq, Repr

/-- Everything one worker iteration (lines 108-247) leaves behind. -/
structure JobOutcomeRecord where
  fs : FS
  success : Bool
  task_done_calls : Nat
  procRunningAfter : Bool
  termEvents : List TermEvent
deriving DecidableEq, Repr

/-- One iteration of the worker loop on a dequeued job, lines 108-247:
the try block sets `success` from the exit code (lines 197-203) or leaves
it false on `FileNotFoundError` (lines 205-208) or on an unexpected
exception (lines 209-224, where a still-running process is terminated:
`terminate()` then `wait(timeout=5)`, and on `TimeoutExpired` `kill()`
then `wait()`); the `finally` block (lines 225-247) unlinks the audio
file only on success, tolerating absence and a raising unlink, and always
calls `whisper_queue.task_done()` exactly once (line 246). -/
def whisperProcessJob (job : Job) (env : JobEnv) (fs : FS) : JobOutcomeRecord :=
  let (success, procRunning, termEvents) :=
    match env.outcome with
    | .exited code => (code == 0, false, ([] : List TermEvent))
    | .launchFailure => (false, false, [])
    | .streamExc .noProc => (false, false, [])
    | .streamExc .exitedAlready => (false, false, [])
    | .streamExc .stillRunning =>
        if env.respondsToTerminate then
          (false, false, [TermEvent.terminate, TermEvent.waitOk])
        else
          (false, false, [TermEvent.terminate, TermEvent.waitTimeoutExpired 5,
                          TermEvent.kill, TermEvent.waitOk])
  let fsAfter :=
    if success then
      if fs.contains job.audio_file then
        if env.unlinkRaises then fs else fs.filter (fun p => p != job.audio_file)
      else fs
    else fs
  { fs := fsAfter
    success := success
    task_done_calls := 1
    procRunningAfter := procRunning
    termEvents := termEvents }

/-! ## The worker loop (lines 103-106 around the per-job body) -/

/-- Result of running the worker loop on a queue trace. -/
structure WorkerRun where
  processed : List Job
  fs : FS
  taskDoneTotal : Nat
  terminated : Bool
deriving DecidableEq, Repr

/-- The `while True` loop of `whisper_worker` (lines 103-247) run against
the sequence of values the queue will hand out, in FIFO order.  `get()` on
`none` (the sentinel) breaks out of the loop at once (lines 105-106); a
`some job` is processed by `whisperProcessJob` with the next environment.
An exhausted queue or environment trace means the worker is still blocked
in `get()` or mid-job at the end of the observed trace: nothing further is
processed and the loop has not terminated. -/
def whisper_worker_loop : List (Option Job) → List JobEnv → FS → WorkerRun
  | [], _, fs => ⟨[], fs, 0, false⟩
  | none :: _, _, fs => ⟨[], fs, 0, true⟩
  | some _ :: _, [], fs => ⟨[], fs, 0, false⟩
  | some j :: rest, env :: envs, fs =>
      let r := whisperProcessJob j env fs
      let rec' := whisper_worker_loop rest envs r.fs
      ⟨j :: rec'.processed, rec'.fs, r.task_done_calls + rec'.taskDoneTotal,
        rec'.terminated⟩

/-- The jobs sitting in the queue ahead of the first sentinel, in arrival
order: exactly what a FIFO consumer that stops at the sentinel sees. -/
def jobsBeforeSentinel : List (Option Job) → List Job
  | [] => []
  | none :: _ => []
  | some j :: rest => j :: jobsBeforeSentinel rest

/-! ## Subprocess-lifetime trace of the worker (for serialization) -/

/-- Observable whisper-subprocess lifecycle events of the worker, in
program order: a subprocess comes into existence (`Popen` succeeds) and a
subprocess ceases to run (exit, or termination by the handler). -/
inductive WEvent
  | launch
  | finish
deriving DecidableEq, Repr

/-- The subprocess lifecycle events of one worker iteration.  A launch
failure or a `Popen` that raises creates no process; in every other case
the single subprocess is launched and is no longer running when the
iteration ends (normal exit, or the terminate/kill handler). -/
def jobEvents : WhisperOutcome → List WEvent
  | .launchFailure => []
  | .streamExc .noProc => []
  | .exited _ => [.launch, .finish]
  | .streamExc .exitedAlready => [.launch, .finish]
  | .streamExc .stillRunning => [.launch, .finish]

/-- The whisper-subprocess event trace of the whole worker run, in
chronological order. -/
def workerTrace : List (Option Job) → List JobEnv → List WEvent
  | [], _ => []
  | none :: _, _ => []
  | some _ :: _, [] => []
  | some _ :: rest, env :: envs => jobEvents env.outcome ++ workerTrace rest envs

/-- The number of whisper subprocesses alive after each event of a trace,
starting from `n` alive. -/
def runAlive : List WEvent → Int → List Int
  | [], _ => []
  | .launch :: rest, n => (n + 1) :: runAlive rest (n + 1)
  | .finish :: rest, n => (n - 1) :: runAlive rest (n - 1)

/-! ## Orchestrator: discovery, startup order, shutdown (lines 251-296) -/

/-- Python's `str.lower()` on the ASCII extensions the module compares:
per-character lowercasing.  (`String.toLower` computes the same function
but through `String.mapAux`, which the kernel cannot evaluate.) -/
def pyLower (s : String) : String := String.mk (s.data.map Char.toLower)

/-- Lines 280-284: the files of the walked tree that get an extractor task,
in discovery order: `video_file.suffix.lower() in suffix`.  Note only the
file's suffix is lowercased; allow-list entries are compared verbatim. -/
def extractorSubmits (entries : List VideoFile) (allow : List String) :
    List VideoFile :=
  entries.filter (fun v => allow.contains (pyLower v.suffix))

/-- Chronological orchestration events of `transcribe_videos`: the worker
thread start (lines 275-276) and each extractor-task submission
(line 283). -/
inductive OrchEvent
  | startWorker
  | submitExtractor (v : VideoFile)
deriving DecidableEq, Repr

/-- Lines 274-284 in order: the worker thread is started first, then one
extractor task is submitted per matching file. -/
def transcribe_videos_startup (entries : List VideoFile)
    (allow : List String) : List OrchEvent :=
  OrchEvent.startWorker :: (extractorSubmits entries allow).map OrchEvent.submitExtractor

/-- What the claim C4 phrases as matching the allow-list
case-insensitively: some allow-list entry equals the extension up to
case. -/
def matchesAllowListCI (ext : String) (allow : List String) : Prop :=
  ∃ a ∈ allow, pyLower ext = pyLower a

/-- What the tail of `transcribe_videos` (lines 264-296) actually does.
Line 264 rebinds `whisper_queue` to a fresh local `queue.Queue()`, so the
`join()`, `put(None)` and the worker read different queues. -/
structure ShutdownResult where
  /-- The local queue of line 264 after the `put` of line 292. -/
  localQueueFinal : List (Option Job)
  /-- The module-level queue, the one `extract_audio` fills (line 77) and
  `whisper_worker` drains (line 104), after line 292. -/
  globalQueueFinal : List (Option Job)
  /-- Whether the `join()` of line 289 had any unfinished task to wait
  for on the queue it was called on. -/
  drainWaitBlocksOnJobs : Bool
  /-- Whether the worker ever dequeues a sentinel and so terminates. -/
  workerTerminates : Bool
  /-- Whether `transcribe_videos` gets past `worker_thread.join()`
  (line 293) and reaches the completion report (line 295). -/
  functionReturns : Bool
deriving DecidableEq, Repr

/-- Lines 264-296 after the extraction phase, given the content the
module-level queue accumulated from the extractors.  Because of the
rebinding at line 264: the local queue starts empty, so `join()` (line
289) has zero unfinished tasks and returns at once; `put(None)` (line
292) appends the sentinel to the local queue; the worker loops on the
module-level queue (line 104), terminating only if a sentinel appears
there; `worker_thread.join()` (line 293) returns only if the worker
terminates. -/
def transcribe_videos_shutdown (globalQueue : List (Option Job)) : ShutdownResult :=
  let localQueue : List (Option Job) := []
  let drainBlocks := decide (localQueue.length ≠ 0)
  let localAfterPut := localQueue ++ [none]
  let workerTerminates := globalQueue.contains (none : Option Job)
  { localQueueFinal := localAfterPut
    globalQueueFinal := globalQueue
    drainWaitBlocksOnJobs := drainBlocks
    workerTerminates := workerTerminates
    functionReturns := workerTerminates }

/-! ## The settings file (lines 83-102) -/

/-- Values appearing in the whisper command settings document.  Decimal
literals with one fractional digit are represented exactly in tenths
(`tenths n` stands for `n / 10`). -/
inductive TomlVal
  | int (n : Int)
  | bool (b : Bool)
  | str (s : String)
  | tenths (n : Int)
deriving DecidableEq, Repr

/-- The hard-coded default command document of lines 86-97. -/
def defaultWhisperCommand : List (String × TomlVal) :=
  [("threads", .int 4),
   ("max_context", .int 0),
   ("translate", .bool true),
   ("logprob_thold", .tenths (-5)),
   ("no_speech_thold", .tenths 3),
   ("word_thold", .tenths 5),
   ("best_of", .int 5),
   ("language", .str "auto"),
   ("entropy-thold", .tenths 28),
   ("output_format", .str "-osrt")]

/-- What the startup of `whisper_worker` (lines 83-102) establishes before
the `while True` loop is entered. -/
structure WorkerInit where
  command : List (String × TomlVal)
  wroteDefaultToConfigPath : Bool
deriving DecidableEq, Repr

/-- Lines 83-102: if the config file at
`ExplicitUtil/config/whisper_command.toml` does not exist, the hard-coded
default document is written there; otherwise the document is loaded from
the file. -/
def whisperWorkerInit (configExists : Bool)
    (stored : List (String × TomlVal)) : WorkerInit :=
  if configExists then
    { command := stored, wroteDefaultToConfigPath := false }
  else
    { command := defaultWhisperCommand, wroteDefaultToConfigPath := true }

/-- The whole of `whisper_worker` (lines 81-247): the config step of lines
83-102 runs first, then the loop of lines 103-247 processes the queue.
The pair records that the init is established before the first job is
processed. -/
def whisper_worker (configExists : Bool) (stored : List (String × TomlVal))
    (q : List (Option Job)) (envs : List JobEnv) (fs : FS) :
    WorkerInit × WorkerRun :=
  (whisperWorkerInit configExists stored, whisper_worker_loop q envs fs)

/-- The default extension allow-list of line 255. -/
def defaultSuffixes : List String := [".m4v", ".mp4", ".mkv"]

/-- A concrete discovered video file for witnesses. -/
def sampleVideo : VideoFile := { parent := "d", stem := "a", suffix := ".mp4" }

/-- The job `extract_audio` builds for `sampleVideo` with tool root "w". -/
def sampleJob : Job :=
  { video_file := "d/a.mp4"
    audio_file := "d/a.wav"
    input_folder := "d"
    base_name := "a"
    whisper_path := "w/build/bin/Release/whisper-cli.exe"
    model_path := "w/models/ggml-large-v3.bin"
    prompt := "" }

/-- A second concrete job, for order-sensitive witnesses. -/
def sampleJobB : Job :=
  { video_file := "d/b.mp4"
    audio_file := "d/b.wav"
    input_folder := "d"
    base_name := "b"
    whisper_path := "w/build/bin/Release/whisper-cli.exe"
    model_path := "w/models/ggml-large-v3.bin"
    prompt := "" }

/-- An environment in which the whisper subprocess succeeds. -/
def sampleEnvOk : JobEnv :=
  { outcome := .exited 0, respondsToTerminate := true, unlinkRaises := false }

/-! ## Helper lemmas -/

/-- Every worker iteration calls `task_done` exactly once: the call is in
the `finally` block. -/
theorem whisperProcessJob_task_done_eq_one (job : Job) (env : JobEnv) (fs : FS) :
    (whisperProcessJob job env fs).task_done_calls = 1 := by
  obtain ⟨o, r, u⟩ := env
  cases o with
  | launchFailure => rfl
  | exited c => rfl
  | streamExc p => cases p <;> cases r <;> rfl

/-- Over a whole worker run, `task_done` calls count the processed jobs. -/
theorem whisper_worker_loop_taskDone_eq_length (q : List (Option Job)) :
    ∀ (envs : List JobEnv) (fs : FS),
      (whisper_worker_loop q envs fs).taskDoneTotal =
        (whisper_worker_loop q envs fs).processed.length := by
  induction q with
  | nil => intro envs fs; rfl
  | cons h t ih =>
    intro envs fs
    cases h with
    | none => rfl
    | some j =>
      cases envs with
      | nil => rfl
      | cons e es =>
        simp [whisper_worker_loop, ih, whisperProcessJob_task_done_eq_one,
          Nat.add_comm]

/-- No worker iteration leaves its whisper subprocess running. -/
theorem whisperProcessJob_proc_not_running (job : Job) (env : JobEnv) (fs : FS) :
    (whisperProcessJob job env fs).procRunningAfter = false := by
  obtain ⟨o, r, u⟩ := env
  cases o with
  | launchFailure => rfl
  | exited c => rfl
  | streamExc p => cases p <;> cases r <;> rfl

/-! ## Claim theorems -/

/-- C1 (code bug in the source): `extract_audio` calls `subprocess.run`
without `check=True` (line 60), so `CalledProcessError` is never raised
and the handler at lines 63-65 is dead code.  As a result a job is put on
the queue for EVERY exit code of ffmpeg, non-zero included — contradicting
the claim (and the function's own docstring and the comment at line 67)
that on extraction failure the error is logged and no job is enqueued.
Moreover a launch failure raises `FileNotFoundError`, which the handler
does not catch, so it escapes the function un-logged. -/
theorem extract_audio_enqueues_on_nonzero_exit :
    (∀ (v : VideoFile) (root prompt : String) (code : Int),
      extract_audio v root prompt (.exited code) =
        .enqueued
          { video_file := v.path
            audio_file := v.parent ++ "/" ++ v.stem ++ ".wav"
            input_folder := v.parent
            base_name := v.stem
            whisper_path := root ++ "/build/bin/Release/whisper-cli.exe"
            model_path := root ++ "/models/ggml-large-v3.bin"
            prompt := prompt })
    ∧ (∀ (v : VideoFile) (root prompt : String),
        extract_audio v root prompt .launchFailure = .raised .fileNotFoundError) :=
  ⟨fun _ _ _ _ => rfl, fun _ _ _ => rfl⟩

/-- C2 (code bug in the source): line 264 rebinds `whisper_queue` to a
fresh local `queue.Queue()`, shadowing the module-level queue that
`extract_audio` fills and `whisper_worker` drains.  With one job on the
module-level queue: the `join()` of line 289 has no unfinished task to
wait for, the sentinel of line 292 lands on the local queue so the
worker's queue never contains it, the worker never terminates, and
`worker_thread.join()` (line 293) blocks forever — `transcribe_videos`
never returns or reports completion. -/
theorem transcribe_videos_shutdown_never_returns :
    (transcribe_videos_shutdown [some sampleJob]).drainWaitBlocksOnJobs = false
    ∧ (transcribe_videos_shutdown [some sampleJob]).localQueueFinal = [none]
    ∧ (transcribe_videos_shutdown [some sampleJob]).globalQueueFinal.contains
        (none : Option Job) = false
    ∧ (transcribe_videos_shutdown [some sampleJob]).workerTerminates = false
    ∧ (transcribe_videos_shutdown [some sampleJob]).functionReturns = false := by
  refine ⟨rfl, rfl, by decide, by decide, by decide⟩

/-- C5: when the value dequeued by the worker is the sentinel `None`, the
loop breaks immediately (lines 105-106): no further job is processed, no
`task_done` is issued, the filesystem is untouched, and the worker
terminates in that single step. -/
theorem whisper_worker_sentinel_terminates (rest : List (Option Job))
    (envs : List JobEnv) (fs : FS) :
    whisper_worker_loop (none :: rest) envs fs =
      { processed := [], fs := fs, taskDoneTotal := 0, terminated := true } :=
  rfl

/-- C6: every dequeued job is marked complete exactly once — the
`task_done()` call sits in the `finally` block (line 246), so it runs on
success, non-zero exit, launch failure and unexpected streaming exceptions
alike; over a whole run the number of `task_done` calls equals the number
of processed jobs, which is what lets `queue.join()` unblock. -/
theorem whisper_worker_task_done_exactly_once :
    (∀ (job : Job) (env : JobEnv) (fs : FS),
      (whisperProcessJob job env fs).task_done_calls = 1)
    ∧ (∀ (q : List (Option Job)) (envs : List JobEnv) (fs : FS),
        (whisper_worker_loop q envs fs).taskDoneTotal =
          (whisper_worker_loop q envs fs).processed.length) :=
  ⟨whisperProcessJob_task_done_eq_one,
   fun q envs fs => whisper_worker_loop_taskDone_eq_length q envs fs⟩

/-- C8: lines 83-102 run before the `while True` loop, so the command
document is settled before the first job is processed: when the config
file is absent the hard-coded default document — with exactly the keys
threads, max_context, translate, logprob_thold, no_speech_thold,
word_thold, best_of, language, entropy-thold, output_format — is
generated and written to the config path; when it is present the document
is loaded from it. -/
theorem whisper_worker_config_default_generation :
    (∀ (stored : List (String × TomlVal)) (q : List (Option Job))
       (envs : List JobEnv) (fs : FS),
      (whisper_worker false stored q envs fs).1 =
        { command := defaultWhisperCommand, wroteDefaultToConfigPath := true }
      ∧ (whisper_worker true stored q envs fs).1 =
        { command := stored, wroteDefaultToConfigPath := false })
    ∧ defaultWhisperCommand.map Prod.fst =
        ["threads", "max_context", "translate", "logprob_thold",
         "no_speech_thold", "word_thold", "best_of", "language",
         "entropy-thold", "output_format"] :=
  ⟨fun _ _ _ _ => ⟨rfl, rfl⟩, rfl⟩

/-- C10: no whisper subprocess outlives its job.  For every outcome the
iteration ends with no process running; in the unexpected-exception case
with the process still alive, the handler of lines 213-224 first calls
`terminate()`, waits up to 5 seconds, and only on `TimeoutExpired` calls
`kill()` and waits again. -/
theorem whisper_worker_zombie_termination :
    (∀ (job : Job) (env : JobEnv) (fs : FS),
      (whisperProcessJob job env fs).procRunningAfter = false)
    ∧ (∀ (job : Job) (u : Bool) (fs : FS),
        (whisperProcessJob job
          { outcome := .streamExc .stillRunning, respondsToTerminate := true,
            unlinkRaises := u } fs).termEvents =
          [TermEvent.terminate, TermEvent.waitOk])
    ∧ (∀ (job : Job) (u : Bool) (fs : FS),
        (whisperProcessJob job
          { outcome := .streamExc .stillRunning, respondsToTerminate := false,
            unlinkRaises := u } fs).termEvents =
          [TermEvent.terminate, TermEvent.waitTimeoutExpired 5,
           TermEvent.kill, TermEvent.waitOk]) :=
  ⟨whisperProcessJob_proc_not_running, fun _ _ _ => rfl, fun _ _ _ => rfl⟩

/-- A concrete file whose extension is uppercase on disk. -/
def upperVideo : VideoFile := { parent := "d", stem := "c", suffix := ".MP4" }

/-- Filtering out a path removes every occurrence of it. -/
theorem not_mem_filter_ne (l : FS) (a : String) :
    a ∉ l.filter (fun p => p != a) := by
  intro h
  rw [List.mem_filter] at h
  simp at h

/-- C3: on exit code 0 the job's audio file is gone afterwards (absence
before the unlink is tolerated by the `exists()` check at line 230, and an
unlink that raises is only logged — the job stays a success and is still
marked done); on non-zero exit or launch failure the `finally` block
leaves the filesystem untouched, so the audio file still exists. -/
theorem whisper_worker_audio_cleanup (job : Job) (r u : Bool) (fs : FS) :
    (job.audio_file ∉ (whisperProcessJob job
        { outcome := .exited 0, respondsToTerminate := r, unlinkRaises := false }
        fs).fs)
    ∧ ((whisperProcessJob job
        { outcome := .exited 0, respondsToTerminate := r, unlinkRaises := u }
        fs).success = true)
    ∧ ((whisperProcessJob job
        { outcome := .exited 0, respondsToTerminate := r, unlinkRaises := u }
        fs).task_done_calls = 1)
    ∧ (∀ c : Int, c ≠ 0 → (whisperProcessJob job
        { outcome := .exited c, respondsToTerminate := r, unlinkRaises := u }
        fs).fs = fs)
    ∧ ((whisperProcessJob job
        { outcome := .launchFailure, respondsToTerminate := r, unlinkRaises := u }
        fs).fs = fs) := by
  refine ⟨?_, rfl, rfl, ?_, rfl⟩
  · by_cases h : fs.contains job.audio_file = true
    · simp only [whisperProcessJob, h]
      exact not_mem_filter_ne fs job.audio_file
    · simp only [whisperProcessJob, h]
      intro hmem
      exact h (by simpa using hmem)
  · intro c hc
    have hb : (c == 0) = false := by simpa using hc
    simp [whisperProcessJob, hb]

/-- C3 witness: concrete success and failure runs over a one-file
filesystem. -/
theorem whisper_worker_audio_cleanup_witness :
    (sampleJob.audio_file ∉ (whisperProcessJob sampleJob
        { outcome := .exited 0, respondsToTerminate := true, unlinkRaises := false }
        ["d/a.wav"]).fs)
    ∧ (whisperProcessJob sampleJob
        { outcome := .exited 1, respondsToTerminate := true, unlinkRaises := false }
        ["d/a.wav"]).fs = ["d/a.wav"] :=
  ⟨(whisper_worker_audio_cleanup sampleJob true false ["d/a.wav"]).1,
   (whisper_worker_audio_cleanup sampleJob true false ["d/a.wav"]).2.2.2.1 1
     (by decide)⟩

/-- C4 counterexample: the comparison at line 281 lowercases only the
file's suffix, never the allow-list entries.  A file with extension
".mp4" matches the allow-list [".MP4"] case-insensitively, yet no
extractor task is submitted for it. -/
theorem extractor_filter_misses_uppercase_allow_entry :
    matchesAllowListCI ".mp4" [".MP4"]
    ∧ extractorSubmits [sampleVideo] [".MP4"] = [] := by
  constructor
  · exact ⟨".MP4", by simp, by decide⟩
  · decide

/-- C4 amended: a file appearing once in the walked tree gets exactly one
extractor submission when its LOWERCASED extension is literally an element
of the allow-list, and none otherwise; this coincides with
case-insensitive matching whenever the allow-list entries are lowercase,
as the default (".m4v", ".mp4", ".mkv") is. -/
theorem extractor_submits_lowercased_suffix (v : VideoFile)
    (entries : List VideoFile) (allow : List String)
    (h : entries.count v = 1) :
    (extractorSubmits entries allow).count v =
      if allow.contains (pyLower v.suffix) then 1 else 0 := by
  unfold extractorSubmits
  by_cases hc : allow.contains (pyLower v.suffix) = true
  · have hpv : (fun w : VideoFile => allow.contains (pyLower w.suffix)) v = true := hc
    rw [if_pos hc,
      @List.count_filter VideoFile _ _
        (fun w : VideoFile => allow.contains (pyLower w.suffix)) v entries hpv]
    exact h
  · rw [if_neg hc, List.count_eq_zero]
    intro hm
    rw [List.mem_filter] at hm
    exact hc hm.2

/-- C4 witness: a file with an UPPERCASE on-disk extension is matched
against the default lowercase allow-list. -/
theorem extractor_submits_lowercased_suffix_witness :
    ([upperVideo, sampleVideo].count upperVideo = 1)
    ∧ (extractorSubmits [upperVideo, sampleVideo] defaultSuffixes).count
        upperVideo =
        (if defaultSuffixes.contains (pyLower upperVideo.suffix) then 1 else 0) :=
  ⟨by decide,
   extractor_submits_lowercased_suffix upperVideo [upperVideo, sampleVideo]
     defaultSuffixes (by decide)⟩

/-- C7: the worker consumes the queue first-in first-out: given enough
environment for each job, the sequence of processed jobs is exactly the
enqueued jobs ahead of the first sentinel, in arrival order — no job is
processed before one queued ahead of it. -/
theorem whisper_worker_fifo_order (q : List (Option Job)) :
    ∀ (envs : List JobEnv) (fs : FS),
      (jobsBeforeSentinel q).length ≤ envs.length →
      (whisper_worker_loop q envs fs).processed = jobsBeforeSentinel q := by
  induction q with
  | nil => intro envs fs _; rfl
  | cons hd t ih =>
    intro envs fs h
    cases hd with
    | none => rfl
    | some j =>
      cases envs with
      | nil => simp [jobsBeforeSentinel] at h
      | cons e es =>
        simp only [whisper_worker_loop, jobsBeforeSentinel, List.cons.injEq]
        exact ⟨trivial, ih es _ (by simpa [jobsBeforeSentinel] using h)⟩

/-- C7 witness: two jobs, processed in arrival order. -/
theorem whisper_worker_fifo_order_witness :
    ((jobsBeforeSentinel [some sampleJob, some sampleJobB]).length ≤
      ([sampleEnvOk, sampleEnvOk] : List JobEnv).length)
    ∧ (whisper_worker_loop [some sampleJob, some sampleJobB]
        [sampleEnvOk, sampleEnvOk] []).processed =
        jobsBeforeSentinel [some sampleJob, some sampleJobB] :=
  ⟨by decide,
   whisper_worker_fifo_order [some sampleJob, some sampleJobB]
     [sampleEnvOk, sampleEnvOk] [] (by decide)⟩

/-- One launch/finish pair starting from zero alive processes peaks at one
and returns to zero. -/
theorem runAlive_launch_finish (tr : List WEvent) :
    runAlive (WEvent.launch :: WEvent.finish :: tr) 0 =
      1 :: 0 :: runAlive tr 0 := by
  norm_num [runAlive]

/-- Prepending one balanced launch/finish block preserves the at-most-one
bound. -/
theorem mem_runAlive_block_le_one (tr : List WEvent) (x : Int)
    (h : ∀ y ∈ runAlive tr 0, y ≤ 1)
    (hx : x ∈ runAlive (WEvent.launch :: WEvent.finish :: tr) 0) : x ≤ 1 := by
  rw [runAlive_launch_finish] at hx
  simp only [List.mem_cons] at hx
  rcases hx with rfl | rfl | hx
  · norm_num
  · norm_num
  · exact h x hx

/-- C9: the orchestrator starts the single worker thread before any
extractor task is submitted (first event of the startup sequence), and
along the worker's whole subprocess-lifecycle trace at most one whisper
subprocess is ever alive: each iteration's subprocess finishes before the
next is launched. -/
theorem whisper_single_transcription_at_a_time :
    (∀ (entries : List VideoFile) (allow : List String),
      (transcribe_videos_startup entries allow).head? =
        some OrchEvent.startWorker)
    ∧ (∀ (q : List (Option Job)) (envs : List JobEnv),
        ∀ x ∈ runAlive (workerTrace q envs) 0, x ≤ 1) := by
  constructor
  · intro entries allow; rfl
  · intro q
    induction q with
    | nil => intro envs x hx; simp [workerTrace, runAlive] at hx
    | cons hd t ih =>
      intro envs x hx
      cases hd with
      | none => simp [workerTrace, runAlive] at hx
      | some j =>
        cases envs with
        | nil => simp [workerTrace, runAlive] at hx
        | cons e es =>
          have htr : workerTrace (some j :: t) (e :: es) =
              jobEvents e.outcome ++ workerTrace t es := rfl
          rw [htr] at hx
          cases ho : e.outcome with
          | launchFailure =>
            rw [ho] at hx
            simp only [jobEvents, List.nil_append] at hx
            exact ih es x hx
          | exited c =>
            rw [ho] at hx
            simp only [jobEvents, List.cons_append, List.nil_append] at hx
            exact mem_runAlive_block_le_one _ x (fun y hy => ih es y hy) hx
          | streamExc p =>
            rw [ho] at hx
            cases p with
            | noProc =>
              simp only [jobEvents, List.nil_append] at hx
              exact ih es x hx
            | exitedAlready =>
              simp only [jobEvents, List.cons_append, List.nil_append] at hx
              exact mem_runAlive_block_le_one _ x (fun y hy => ih es y hy) hx
            | stillRunning =>
              simp only [jobEvents, List.cons_append, List.nil_append] at hx
              exact mem_runAlive_block_le_one _ x (fun y hy => ih es y hy) hx

/-- C9 witness: a one-job run in which the alive-count trace contains the
value 1, bounded by 1. -/
theorem whisper_single_transcription_at_a_time_witness :
    ((1 : Int) ∈ runAlive (workerTrace [some sampleJob] [sampleEnvOk]) 0)
    ∧ (1 : Int) ≤ 1 :=
  ⟨by decide,
   whisper_single_transcription_at_a_time.2 [some sampleJob] [sampleEnvOk] 1
     (by decide)⟩

end ExplicitUtil
